import Mathlib

/-!
Shallow embedding of the structured-error library found in
src/src/utils/errors/base.rs: the closed ErrorType taxonomy with its
bidirectional string mapping (Display and FromStr), the ErrorCodes
overlay, and the MappedErrors value with construction and one-level
cause flattening (new), code attachment (with_code), canonical
rendering (the Display implementation) and total parsing
(from_str_msg).  The regex used by from_str_msg,
anchored [code=(alnum+),error_type=(letters-or-hyphen+)] ws (dot+),
is modelled by an explicit deterministic tokenizer; the greedy
character classes are followed by delimiter characters excluded from
the classes, so maximal-run tokenization is exactly the regex's match
semantics.
-/

namespace Appendix

/-- The closed classification of failure categories (enum ErrorType in
the source). -/
inductive ErrorType where
  | UndefinedError
  | CreationError
  | UpdatingError
  | FetchingError
  | DeletionError
  | UseCaseError
  | ExecutionError
  | InvalidRepositoryError
  | InvalidArgumentError
deriving DecidableEq

/-- The Display implementation for ErrorType: one fixed
lowercase-hyphenated canonical name per variant. -/
def ErrorType.fmt : ErrorType → String
  | .UndefinedError => "undefined-error"
  | .CreationError => "creation-error"
  | .UpdatingError => "updating-error"
  | .FetchingError => "fetching-error"
  | .DeletionError => "deletion-error"
  | .UseCaseError => "use-case-error"
  | .ExecutionError => "execution-error"
  | .InvalidRepositoryError => "invalid-repository-error"
  | .InvalidArgumentError => "invalid-argument-error"

/-- The FromStr implementation for ErrorType: the source matches the
input string sequentially against the nine canonical literals and
returns Err on anything else. -/
def ErrorType.from_str (s : String) : Except Unit ErrorType :=
  if s = "undefined-error" then .ok .UndefinedError
  else if s = "creation-error" then .ok .CreationError
  else if s = "updating-error" then .ok .UpdatingError
  else if s = "fetching-error" then .ok .FetchingError
  else if s = "deletion-error" then .ok .DeletionError
  else if s = "use-case-error" then .ok .UseCaseError
  else if s = "execution-error" then .ok .ExecutionError
  else if s = "invalid-repository-error" then .ok .InvalidRepositoryError
  else if s = "invalid-argument-error" then .ok .InvalidArgumentError
  else .error ()

/-- The ErrorCodes enum: an application-defined code string or the
explicit Unmapped marker. -/
inductive ErrorCodes where
  | Code (code : String)
  | Unmapped
deriving DecidableEq

/-- ErrorCodes::default returns Unmapped. -/
def ErrorCodes.default : ErrorCodes := ErrorCodes.Unmapped

/-- The MappedErrors struct: message, error type and error code. -/
structure MappedErrors where
  msg : String
  error_type : ErrorType
  code : ErrorCodes
deriving DecidableEq

/-- MappedErrors::code_key, the fixed key used in the rendered form. -/
def MappedErrors.code_key : String := "code"

/-- MappedErrors::error_type_key, the fixed key used in the rendered
form. -/
def MappedErrors.error_type_key : String := "error_type"

/-- The Display implementation for MappedErrors: renders
[code_key=code_value,error_type_key=error_type] msg, with code_value
the code's string for Code and the literal none for Unmapped. -/
def MappedErrors.fmt (e : MappedErrors) : String :=
  let code_value : String :=
    match e.code with
    | ErrorCodes.Code code => code
    | ErrorCodes.Unmapped => "none"
  "[" ++ MappedErrors.code_key ++ "=" ++ code_value ++ "," ++
    MappedErrors.error_type_key ++ "=" ++ e.error_type.fmt ++ "] " ++ e.msg

/-- The msg accessor method of MappedErrors: the source returns
self.to_string(), i.e. the Display rendering, not the raw msg field. -/
def MappedErrors.msgMethod (e : MappedErrors) : String := e.fmt

/-- Rust Debug escaping of one character inside a double-quoted string
literal: NUL becomes backslash-zero; tab, carriage return, newline,
backslash and double quote get their named backslash escapes; the
remaining C0 controls, DEL and the C1 controls get a backslash-u-brace
lowercase hexadecimal escape; every other character is emitted
verbatim.  On ASCII strings (and on the C1 controls) this coincides
exactly with the Debug formatting of the Rust standard library; beyond
that range Rust also escapes the non-printable and grapheme-extended
code points of its toolchain's Unicode tables, which this model does
not reproduce, so every theorem here about exact Debug output carries
an explicit ASCII hypothesis on the messages involved. -/
def rustEscapeDebugChar (c : Char) : String :=
  if c.toNat = 0 then "\\0"
  else if c = '"' then "\\\""
  else if c = '\\' then "\\\\"
  else if c = '\n' then "\\n"
  else if c = '\r' then "\\r"
  else if c = '\t' then "\\t"
  else if c.toNat < 32 ∨ (127 ≤ c.toNat ∧ c.toNat ≤ 159) then
    "\\u\x7b" ++ String.mk (Nat.toDigits 16 c.toNat) ++ "\x7d"
  else String.singleton c

/-- Rust Debug formatting of a String value: the escaped characters
surrounded by double quotes. -/
def rustDebugString (s : String) : String :=
  "\"" ++ String.join (s.data.map rustEscapeDebugChar) ++ "\""

/-- MappedErrors::new.  The log emission (error! or warn! depending on
the exp flag) is an external fire-and-forget side effect that never
influences the returned value and is not modelled; the exp parameter is
kept for signature fidelity.  When a previous error is present the
message is rebuilt from the Debug representations of both messages and
the construction recurses once with no previous error. -/
def MappedErrors.new (msg : String) (exp : Option Bool)
    (prev : Option MappedErrors) (error_type : ErrorType) : MappedErrors :=
  match prev with
  | some p =>
      MappedErrors.new
        ("[Current error] " ++ rustDebugString msg ++ "; [Previous error] " ++
          rustDebugString p.msg) exp none error_type
  | none => { msg := msg, error_type := error_type, code := ErrorCodes.default }
termination_by prev.elim 0 fun _ => 1
decreasing_by simp [Option.elim]

/-- MappedErrors::with_code: sets the code field to Code code, except
that the reserved literal none is normalized to Unmapped. -/
def MappedErrors.with_code (e : MappedErrors) (code : String) : MappedErrors :=
  if code = "none" then { e with code := ErrorCodes.Unmapped }
  else { e with code := ErrorCodes.Code code }

/-- Character class of the first capture group of the parsing regex:
ASCII alphanumerics. -/
def isAlnumAscii (c : Char) : Bool :=
  decide (('a' ≤ c ∧ c ≤ 'z') ∨ ('A' ≤ c ∧ c ≤ 'Z') ∨ ('0' ≤ c ∧ c ≤ '9'))

/-- Character class of the second capture group of the parsing regex:
ASCII letters and the hyphen. -/
def isTypeChar (c : Char) : Bool :=
  decide (('a' ≤ c ∧ c ≤ 'z') ∨ ('A' ≤ c ∧ c ≤ 'Z') ∨ c = '-')

/-- The regex whitespace class (Unicode White_Space property, as used
by the Rust regex crate for a single whitespace character). -/
def isRegexWhitespace (c : Char) : Bool :=
  decide (c.toNat ∈ [9, 10, 11, 12, 13, 32, 0x85, 0xA0, 0x1680, 0x2000,
    0x2001, 0x2002, 0x2003, 0x2004, 0x2005, 0x2006, 0x2007, 0x2008,
    0x2009, 0x200A, 0x2028, 0x2029, 0x202F, 0x205F, 0x3000])

/-- Consumes an expected literal from the front of a character list,
returning the remainder, or none when the input does not start with the
literal. -/
def dropLit : List Char → List Char → Option (List Char)
  | [], cs => some cs
  | _ :: _, [] => none
  | l :: ls, c :: cs => if c = l then dropLit ls cs else none

/-- Takes the maximal front run of characters satisfying p, returning
the run and the remainder (the greedy semantics of a regex character
class followed by a delimiter outside the class). -/
def takeRun (p : Char → Bool) : List Char → List Char × List Char
  | [] => ([], [])
  | c :: cs =>
    if p c then
      let r := takeRun p cs
      (c :: r.1, r.2)
    else ([], c :: cs)

/-- The anchored pattern of from_str_msg: literal [code=, a nonempty
alphanumeric code token, literal ,error_type=, a nonempty
letters-or-hyphen type token, literal ], one whitespace character, and
a nonempty newline-free message tail reaching the end of the input.
Returns the three capture groups on a match. -/
def matchErrPattern (s : String) : Option (String × String × String) :=
  (dropLit "[code=".data s.data).bind fun r1 =>
    let codeSplit := takeRun isAlnumAscii r1
    if codeSplit.1 = [] then none
    else
      (dropLit ",error_type=".data codeSplit.2).bind fun r3 =>
        let typeSplit := takeRun isTypeChar r3
        if typeSplit.1 = [] then none
        else
          (dropLit "]".data typeSplit.2).bind fun r5 =>
            match r5 with
            | [] => none
            | w :: tail =>
              if isRegexWhitespace w = true ∧ tail ≠ [] ∧
                  (∀ ch ∈ tail, ch ≠ '\n') then
                some (⟨codeSplit.1⟩, ⟨typeSplit.1⟩, ⟨tail⟩)
              else none

/-- MappedErrors::from_str_msg: on a pattern match, build a fresh error
from the message tail with the resolved type (falling back to
UndefinedError when the type token is unknown) and attach the extracted
code via with_code; otherwise build a fresh UndefinedError carrying the
whole input as message. -/
def MappedErrors.from_str_msg (msg : String) : MappedErrors :=
  match matchErrPattern msg with
  | some (code, typeTok, tail) =>
    let error_type :=
      match ErrorType.from_str typeTok with
      | .ok error_type => error_type
      | .error _ => ErrorType.UndefinedError
    (MappedErrors.new tail none none error_type).with_code code
  | none => MappedErrors.new msg none none ErrorType.UndefinedError


/-- Unfolding of MappedErrors::new when no previous error is given: the
plain construction with the default (Unmapped) code. -/
theorem new_none (msg : String) (exp : Option Bool) (et : ErrorType) :
    MappedErrors.new msg exp none et = ⟨msg, et, ErrorCodes.Unmapped⟩ := by
  simp [MappedErrors.new, ErrorCodes.default]

/-- Unfolding of MappedErrors::new when a previous error is given: the
recursion bottoms out after one step in the flattened construction. -/
theorem new_some (msg : String) (exp : Option Bool) (p : MappedErrors) (et : ErrorType) :
    MappedErrors.new msg exp (some p) et =
      ⟨"[Current error] " ++ rustDebugString msg ++ "; [Previous error] " ++
        rustDebugString p.msg, et, ErrorCodes.Unmapped⟩ := by
  simp [MappedErrors.new, ErrorCodes.default]

/-- Unfolding of MappedErrors::with_code: only the code field changes,
with the reserved literal none normalized to Unmapped. -/
theorem with_code_eq (e : MappedErrors) (c : String) :
    e.with_code c = ⟨e.msg, e.error_type,
      if c = "none" then ErrorCodes.Unmapped else ErrorCodes.Code c⟩ := by
  cases e; simp [MappedErrors.with_code]; split <;> simp

/-- dropLit consumes exactly an expected literal prefix. -/
theorem dropLit_append_self (l r : List Char) : dropLit l (l ++ r) = some r := by
  induction l with
  | nil => rfl
  | cons c cs ih => simp [dropLit, ih]

/-- Greedy run extraction stops exactly at the first character outside
the class, matching the regex semantics of class-plus-delimiter. -/
theorem takeRun_append (p : Char → Bool) (l : List Char) (c : Char) (r : List Char)
    (hl : ∀ x ∈ l, p x = true) (hc : p c = false) :
    takeRun p (l ++ c :: r) = (l, c :: r) := by
  induction l with
  | nil => simp [takeRun, hc]
  | cons a as ih =>
    have ha : p a = true := hl a (by simp)
    have ih2 := ih (fun x hx => hl x (by simp [hx]))
    simp [takeRun, ha, ih2]

/-- Parsing the canonical name of any variant recovers the variant. -/
theorem fromStr_fmt_ok (v : ErrorType) : ErrorType.from_str v.fmt = .ok v := by
  cases v <;> rfl

/-- Every canonical type name is nonempty and drawn from the regex type
token class (letters and hyphen). -/
theorem fmt_typeChars (v : ErrorType) :
    v.fmt.data ≠ [] ∧ ∀ c ∈ v.fmt.data, isTypeChar c = true := by
  cases v <;> exact ⟨by decide, by decide⟩

/-- A string of the canonical rendered shape, with a nonempty
alphanumeric code token, a nonempty letters-or-hyphen type token, and a
nonempty newline-free message, is matched by the pattern and yields
exactly the three embedded tokens. -/
theorem matchErr_of_shape (s : String) (cv tv m : List Char)
    (hs : s.data = "[code=".data ++ (cv ++ (",error_type=".data ++ (tv ++ (']' :: ' ' :: m)))))
    (hcv : ∀ c ∈ cv, isAlnumAscii c = true) (hcv0 : cv ≠ [])
    (htv : ∀ c ∈ tv, isTypeChar c = true) (htv0 : tv ≠ [])
    (hm : ∀ c ∈ m, c ≠ '\n') (hm0 : m ≠ []) :
    matchErrPattern s = some (⟨cv⟩, ⟨tv⟩, ⟨m⟩) := by
  unfold matchErrPattern
  rw [hs, dropLit_append_self]
  have h1 : cv ++ (",error_type=".data ++ (tv ++ (']' :: ' ' :: m))) =
      cv ++ ',' :: ("error_type=".data ++ (tv ++ (']' :: ' ' :: m))) := rfl
  rw [Option.some_bind, h1, takeRun_append isAlnumAscii cv ',' _ hcv (by decide)]
  simp only [hcv0, if_neg]
  have h2 : (',' :: ("error_type=".data ++ (tv ++ (']' :: ' ' :: m)))) =
      ",error_type=".data ++ (tv ++ (']' :: ' ' :: m)) := rfl
  rw [h2, dropLit_append_self, Option.some_bind,
    takeRun_append isTypeChar tv ']' _ htv (by decide)]
  simp only [htv0, if_neg]
  have h3 : (']' :: ' ' :: m) = "]".data ++ (' ' :: m) := rfl
  rw [h3, dropLit_append_self, Option.some_bind]
  simp only [if_pos (⟨by decide, hm0, hm⟩ :
    isRegexWhitespace ' ' = true ∧ m ≠ [] ∧ ∀ ch ∈ m, ch ≠ '\n')]
  simp


/-- Character-level shape of the rendered form when the code is Code. -/
theorem fmt_data_code (m : String) (et : ErrorType) (v : String) :
    (MappedErrors.fmt ⟨m, et, ErrorCodes.Code v⟩).data =
      "[code=".data ++ (v.data ++ (",error_type=".data ++
        (et.fmt.data ++ (']' :: ' ' :: m.data)))) := by
  simp only [MappedErrors.fmt, MappedErrors.code_key, MappedErrors.error_type_key,
    String.data_append, List.append_assoc]
  rfl

/-- Character-level shape of the rendered form when the code is
Unmapped. -/
theorem fmt_data_unmapped (m : String) (et : ErrorType) :
    (MappedErrors.fmt ⟨m, et, ErrorCodes.Unmapped⟩).data =
      "[code=".data ++ ("none".data ++ (",error_type=".data ++
        (et.fmt.data ++ (']' :: ' ' :: m.data)))) := by
  simp only [MappedErrors.fmt, MappedErrors.code_key, MappedErrors.error_type_key,
    String.data_append, List.append_assoc]
  rfl

/-- The rendered form is never equal to the bare message: the bracketed
header makes it strictly longer. -/
theorem fmt_ne_msg (e : MappedErrors) : e.fmt ≠ e.msg := by
  obtain ⟨m, et, k⟩ := e
  intro h
  have hd := congrArg (fun s => s.data.length) h
  simp only at hd
  cases k with
  | Code v =>
    rw [show (MappedErrors.fmt ⟨m, et, ErrorCodes.Code v⟩).data = _ from
      fmt_data_code m et v] at hd
    simp [List.length_append] at hd
    omega
  | Unmapped =>
    rw [show (MappedErrors.fmt ⟨m, et, ErrorCodes.Unmapped⟩).data = _ from
      fmt_data_unmapped m et] at hd
    simp [List.length_append] at hd
    omega

/-- Reduction of from_str_msg on an input matched by the pattern. -/
theorem from_str_msg_of_match (s cv tv m : String)
    (h : matchErrPattern s = some (cv, tv, m)) :
    MappedErrors.from_str_msg s =
      (MappedErrors.new m none none
        (match ErrorType.from_str tv with
          | .ok t => t
          | .error _ => ErrorType.UndefinedError)).with_code cv := by
  unfold MappedErrors.from_str_msg
  rw [h]

/-- Reduction of from_str_msg on an input the pattern does not match:
the whole input becomes the message of an unclassified, uncoded error. -/
theorem from_str_msg_of_no_match (s : String) (h : matchErrPattern s = none) :
    MappedErrors.from_str_msg s = ⟨s, ErrorType.UndefinedError, ErrorCodes.Unmapped⟩ := by
  unfold MappedErrors.from_str_msg
  rw [h]
  exact new_none s none ErrorType.UndefinedError

/-- C1 (amended).  The claim as frozen quantifies over every MappedError
and every code string; it fails when the rendered form falls outside the
structured pattern (empty or newline-containing message, or a code
string that is not a nonempty alphanumeric token), as the counterexample
shows.  Amended by exactly those conditions: for every MappedError whose
message is nonempty and newline-free and every nonempty alphanumeric
code string c (the reserved literal none included), parsing the
rendering of with_code yields the same message, the same error_type and
an equivalent code. -/
theorem round_trip_structured (e : MappedErrors) (c : String)
    (hc : ∀ ch ∈ c.data, isAlnumAscii ch = true) (hc0 : c.data ≠ [])
    (hm : ∀ ch ∈ e.msg.data, ch ≠ '\n') (hm0 : e.msg.data ≠ []) :
    (MappedErrors.from_str_msg (e.with_code c).fmt).msg = e.msg ∧
    (MappedErrors.from_str_msg (e.with_code c).fmt).error_type = e.error_type ∧
    (MappedErrors.from_str_msg (e.with_code c).fmt).code = (e.with_code c).code := by
  obtain ⟨m, et, k⟩ := e
  by_cases hn : c = "none"
  · subst hn
    have hfd : ((MappedErrors.mk m et k).with_code "none").fmt.data =
        "[code=".data ++ ("none".data ++ (",error_type=".data ++
          (et.fmt.data ++ (']' :: ' ' :: m.data)))) := by
      rw [with_code_eq]
      simpa using fmt_data_unmapped m et
    have hmatch : matchErrPattern ((MappedErrors.mk m et k).with_code "none").fmt =
        some ("none", et.fmt, m) :=
      matchErr_of_shape _ _ _ _ hfd (by decide) (by decide)
        (fmt_typeChars et).2 (fmt_typeChars et).1 hm hm0
    rw [from_str_msg_of_match _ _ _ _ hmatch, fromStr_fmt_ok et, new_none,
      with_code_eq, with_code_eq]
    exact ⟨rfl, rfl, rfl⟩
  · have hfd : ((MappedErrors.mk m et k).with_code c).fmt.data =
        "[code=".data ++ (c.data ++ (",error_type=".data ++
          (et.fmt.data ++ (']' :: ' ' :: m.data)))) := by
      rw [with_code_eq, if_neg hn]
      exact fmt_data_code m et c
    have hmatch : matchErrPattern ((MappedErrors.mk m et k).with_code c).fmt =
        some (c, et.fmt, m) :=
      matchErr_of_shape _ _ _ _ hfd hc hc0
        (fmt_typeChars et).2 (fmt_typeChars et).1 hm hm0
    rw [from_str_msg_of_match _ _ _ _ hmatch, fromStr_fmt_ok et, new_none,
      with_code_eq, with_code_eq]
    exact ⟨rfl, rfl, rfl⟩


/-- The rendered form as one string equation, Code case. -/
theorem fmt_code_eq (m : String) (et : ErrorType) (v : String) :
    (MappedErrors.mk m et (ErrorCodes.Code v)).fmt =
      "[code=" ++ v ++ ",error_type=" ++ et.fmt ++ "] " ++ m := by
  apply String.ext
  rw [fmt_data_code]
  simp only [String.data_append, List.append_assoc]
  rfl

/-- The rendered form as one string equation, Unmapped case. -/
theorem fmt_unmapped_eq (m : String) (et : ErrorType) :
    (MappedErrors.mk m et ErrorCodes.Unmapped).fmt =
      "[code=none,error_type=" ++ et.fmt ++ "] " ++ m := by
  apply String.ext
  rw [fmt_data_unmapped]
  simp only [String.data_append, List.append_assoc]
  rfl

/-- Witness for C1: the amended round trip at a concrete error with
message hi, type CreationError and code AB12. -/
theorem round_trip_structured_witness :
    (MappedErrors.from_str_msg
      ((MappedErrors.mk "hi" ErrorType.CreationError ErrorCodes.Unmapped).with_code
        "AB12").fmt).msg = "hi" ∧
    (MappedErrors.from_str_msg
      ((MappedErrors.mk "hi" ErrorType.CreationError ErrorCodes.Unmapped).with_code
        "AB12").fmt).error_type = ErrorType.CreationError ∧
    (MappedErrors.from_str_msg
      ((MappedErrors.mk "hi" ErrorType.CreationError ErrorCodes.Unmapped).with_code
        "AB12").fmt).code = ErrorCodes.Code "AB12" := by
  have h := round_trip_structured ⟨"hi", ErrorType.CreationError, ErrorCodes.Unmapped⟩
    "AB12" (by decide) (by decide) (by decide) (by decide)
  refine ⟨h.1, h.2.1, ?_⟩
  rw [h.2.2]
  decide

/-- C1 counterexample.  The claim as stated fails at the MappedError
with empty message, type CreationError and code AB12: the rendered form
[code=AB12,error_type=creation-error] followed by a single space has an
empty message tail, the pattern does not match, and parsing returns
UndefinedError instead of CreationError. -/
theorem round_trip_claim_counterexample :
    (MappedErrors.from_str_msg
      ((MappedErrors.mk "" ErrorType.CreationError ErrorCodes.Unmapped).with_code
        "AB12").fmt).error_type ≠
      (MappedErrors.mk "" ErrorType.CreationError ErrorCodes.Unmapped).error_type := by
  rw [from_str_msg_of_no_match _ (by decide)]
  decide

/-- C2.  Rendering produces exactly [code=code_value,error_type=
type_string] message, with code_value the code string for Code and the
literal none for Unmapped, type_string the canonical name, and the field
order code then error_type; the concrete construction with message This
is a test error, is_expected true, no cause and type UndefinedError
renders to the exact literal of the spec. -/
theorem fmt_canonical_format :
    (∀ (m : String) (et : ErrorType) (v : String),
      (MappedErrors.mk m et (ErrorCodes.Code v)).fmt =
        "[code=" ++ v ++ ",error_type=" ++ et.fmt ++ "] " ++ m) ∧
    (∀ (m : String) (et : ErrorType),
      (MappedErrors.mk m et ErrorCodes.Unmapped).fmt =
        "[code=none,error_type=" ++ et.fmt ++ "] " ++ m) ∧
    (MappedErrors.new "This is a test error" (some true) none
      ErrorType.UndefinedError).fmt =
      "[code=none,error_type=undefined-error] This is a test error" := by
  refine ⟨fmt_code_eq, fmt_unmapped_eq, ?_⟩
  rw [new_none]
  rfl

/-- C3.  The variant-to-string mapping is a bijection between the nine
variants and the nine canonical names: from_str of every canonical name
returns its variant, and from_str succeeds only on exact canonical
names (so every other string, case variants included, is a parse
failure). -/
theorem errorType_string_bijection :
    (∀ v : ErrorType, ErrorType.from_str v.fmt = .ok v) ∧
    (∀ (s : String) (v : ErrorType), ErrorType.from_str s = .ok v → s = v.fmt) := by
  refine ⟨fromStr_fmt_ok, fun s v h => ?_⟩
  unfold ErrorType.from_str at h
  split_ifs at h <;> simp_all [ErrorType.fmt] <;> (cases h; rfl)

/-- Witness for C3 at the variant CreationError and its canonical name
creation-error. -/
theorem errorType_string_bijection_witness :
    ErrorType.from_str "creation-error" = Except.ok ErrorType.CreationError ∧
    "creation-error" = ErrorType.CreationError.fmt := by
  have h := errorType_string_bijection
  exact ⟨h.1 ErrorType.CreationError,
    h.2 "creation-error" ErrorType.CreationError (by rfl)⟩

/-- C4.  from_str_msg is total by construction; on every input the
structured pattern does not match it returns the entire input verbatim
as the message, classified UndefinedError with code Unmapped. -/
theorem from_str_msg_total_fallback (s : String) (h : matchErrPattern s = none) :
    MappedErrors.from_str_msg s =
      ⟨s, ErrorType.UndefinedError, ErrorCodes.Unmapped⟩ :=
  from_str_msg_of_no_match s h

/-- Witness for C4 at the spec input: not a formatted error at all. -/
theorem from_str_msg_total_fallback_witness :
    matchErrPattern "not a formatted error at all" = none ∧
    MappedErrors.from_str_msg "not a formatted error at all" =
      ⟨"not a formatted error at all", ErrorType.UndefinedError,
        ErrorCodes.Unmapped⟩ :=
  ⟨by decide, from_str_msg_total_fallback _ (by decide)⟩

/-- C5.  When the pattern matches but the type token is not canonical,
the result falls back to UndefinedError while the extracted message and
code are still used (the code via the with_code normalization). -/
theorem from_str_msg_unknown_type (s cv tv m : String)
    (h : matchErrPattern s = some (cv, tv, m))
    (ht : ErrorType.from_str tv = .error ()) :
    (MappedErrors.from_str_msg s).msg = m ∧
    (MappedErrors.from_str_msg s).error_type = ErrorType.UndefinedError ∧
    (MappedErrors.from_str_msg s).code =
      (if cv = "none" then ErrorCodes.Unmapped else ErrorCodes.Code cv) := by
  rw [from_str_msg_of_match s cv tv m h, ht, new_none, with_code_eq]
  exact ⟨rfl, rfl, rfl⟩

/-- Witness for C5 at the spec input with unknown type totally-bogus,
code AB12, message hi. -/
theorem from_str_msg_unknown_type_witness :
    (MappedErrors.from_str_msg "[code=AB12,error_type=totally-bogus] hi").msg =
      "hi" ∧
    (MappedErrors.from_str_msg
      "[code=AB12,error_type=totally-bogus] hi").error_type =
      ErrorType.UndefinedError ∧
    (MappedErrors.from_str_msg "[code=AB12,error_type=totally-bogus] hi").code =
      ErrorCodes.Code "AB12" := by
  have h := from_str_msg_unknown_type "[code=AB12,error_type=totally-bogus] hi"
    "AB12" "totally-bogus" "hi" (by decide) (by rfl)
  refine ⟨h.1, h.2.1, ?_⟩
  rw [h.2.2]
  decide

/-- C6.  with_code returns a copy whose code is Code c, except that the
reserved literal none yields Unmapped, leaving message and error_type
untouched; it is a pure total function.  In particular with_code with
none gives exactly the code a fresh construction carries. -/
theorem with_code_normalization (e : MappedErrors) (c : String) :
    e.with_code c = ⟨e.msg, e.error_type,
      if c = "none" then ErrorCodes.Unmapped else ErrorCodes.Code c⟩ ∧
    e.with_code "none" = ⟨e.msg, e.error_type, ErrorCodes.Unmapped⟩ := by
  refine ⟨with_code_eq e c, ?_⟩
  rw [with_code_eq]
  simp

/-- C7.  For every message, expectation flag, optional cause and error
type, construction yields code Unmapped and therefore renders with the
code=none header; construction is total by construction. -/
theorem new_default_code (m : String) (exp : Option Bool)
    (prev : Option MappedErrors) (et : ErrorType) :
    (MappedErrors.new m exp prev et).code = ErrorCodes.Unmapped ∧
    (MappedErrors.new m exp prev et).fmt =
      "[code=none,error_type=" ++ et.fmt ++ "] " ++
        (MappedErrors.new m exp prev et).msg := by
  cases prev with
  | none => rw [new_none]; exact ⟨rfl, fmt_unmapped_eq m et⟩
  | some p => rw [new_some]; exact ⟨rfl, fmt_unmapped_eq _ et⟩

/-- C8.  Construction with a cause equals the recursive call with the
cause cleared, and in one step yields the flattened value: the message
is exactly the current and previous markers around the Debug
representations of the two messages, error_type (and the expectation
flag, which only feeds the recursive call) carry through, and the
result holds no cause structure (MappedErrors has no cause field).
Both messages carry an ASCII hypothesis: that is the range on which the
embedded Debug escaping coincides exactly with the program's. -/
theorem new_flattens_cause (m : String) (exp : Option Bool) (p : MappedErrors)
    (et : ErrorType) (hm : ∀ ch ∈ m.data, ch.toNat < 128)
    (hp : ∀ ch ∈ p.msg.data, ch.toNat < 128) :
    MappedErrors.new m exp (some p) et =
      MappedErrors.new ("[Current error] " ++ rustDebugString m ++
        "; [Previous error] " ++ rustDebugString p.msg) exp none et ∧
    MappedErrors.new m exp (some p) et =
      ⟨"[Current error] " ++ rustDebugString m ++ "; [Previous error] " ++
        rustDebugString p.msg, et, ErrorCodes.Unmapped⟩ := by
  rw [new_some, new_none]
  exact ⟨rfl, rfl⟩

/-- Witness for C8 at the concrete ASCII messages boom and prior: the
flattened message carries both quoted messages and the cause's type is
replaced by the current construction's type. -/
theorem new_flattens_cause_witness :
    MappedErrors.new "boom" (some true)
      (some ⟨"prior", ErrorType.UseCaseError, ErrorCodes.Unmapped⟩)
      ErrorType.CreationError =
      MappedErrors.new "[Current error] \"boom\"; [Previous error] \"prior\""
        (some true) none ErrorType.CreationError ∧
    MappedErrors.new "boom" (some true)
      (some ⟨"prior", ErrorType.UseCaseError, ErrorCodes.Unmapped⟩)
      ErrorType.CreationError =
      ⟨"[Current error] \"boom\"; [Previous error] \"prior\"",
        ErrorType.CreationError, ErrorCodes.Unmapped⟩ := by
  have h := new_flattens_cause "boom" (some true)
    ⟨"prior", ErrorType.UseCaseError, ErrorCodes.Unmapped⟩
    ErrorType.CreationError (by decide) (by decide)
  have hs : "[Current error] " ++ rustDebugString "boom" ++
      "; [Previous error] " ++
      rustDebugString
        (MappedErrors.mk "prior" ErrorType.UseCaseError ErrorCodes.Unmapped).msg =
      "[Current error] \"boom\"; [Previous error] \"prior\"" := by decide
  refine ⟨?_, ?_⟩
  · rw [h.1, hs]
  · rw [h.2, hs]

/-- C9.  No MappedError produced by construction, with_code or parsing
ever carries the code Code none: construction defaults to Unmapped,
with_code normalizes the literal none to Unmapped, and parsing attaches
codes only through with_code. -/
theorem no_representable_none_code :
    (∀ (m : String) (exp : Option Bool) (prev : Option MappedErrors)
      (et : ErrorType),
      (MappedErrors.new m exp prev et).code ≠ ErrorCodes.Code "none") ∧
    (∀ (e : MappedErrors) (c : String),
      (e.with_code c).code ≠ ErrorCodes.Code "none") ∧
    (∀ s : String,
      (MappedErrors.from_str_msg s).code ≠ ErrorCodes.Code "none") := by
  have hwc : ∀ (e : MappedErrors) (c : String),
      (e.with_code c).code ≠ ErrorCodes.Code "none" := by
    intro e c
    rw [with_code_eq]
    by_cases h : c = "none"
    · simp [h]
    · simp [h]
  refine ⟨fun m exp prev et => ?_, hwc, fun s => ?_⟩
  · cases prev with
    | none => rw [new_none]; simp
    | some p => rw [new_some]; simp
  · cases hm : matchErrPattern s with
    | none => rw [from_str_msg_of_no_match s hm]; simp
    | some triple =>
      obtain ⟨cv, tv, m⟩ := triple
      rw [from_str_msg_of_match s cv tv m hm]
      exact hwc _ cv

/-- Witness for C9: attaching the literal none to a concrete error does
not produce Code none. -/
theorem no_representable_none_code_witness :
    ((MappedErrors.mk "x" ErrorType.UndefinedError
      ErrorCodes.Unmapped).with_code "none").code ≠ ErrorCodes.Code "none" :=
  no_representable_none_code.2.1
    ⟨"x", ErrorType.UndefinedError, ErrorCodes.Unmapped⟩ "none"

/-- C10.  The msg accessor method returns the full canonical rendered
string (the Display form with the bracketed code and error_type header),
which is never the raw stored message field. -/
theorem msg_accessor_returns_rendering (e : MappedErrors) :
    e.msgMethod = e.fmt ∧ e.msgMethod ≠ e.msg :=
  ⟨rfl, fmt_ne_msg e⟩

/-- Witness for C10 at a concrete error with the test message. -/
theorem msg_accessor_returns_rendering_witness :
    (MappedErrors.mk "This is a test error" ErrorType.UndefinedError
      ErrorCodes.Unmapped).msgMethod =
      (MappedErrors.mk "This is a test error" ErrorType.UndefinedError
        ErrorCodes.Unmapped).fmt ∧
    (MappedErrors.mk "This is a test error" ErrorType.UndefinedError
      ErrorCodes.Unmapped).msgMethod ≠
      (MappedErrors.mk "This is a test error" ErrorType.UndefinedError
        ErrorCodes.Unmapped).msg :=
  msg_accessor_returns_rendering
    ⟨"This is a test error", ErrorType.UndefinedError, ErrorCodes.Unmapped⟩

end Appendix
